import Mathlib

/-!
Verification of the live metric history engine of `process-viewer`
(`src/process_dialog.rs`).

Modelling conventions:
* Rust `u64` values are `Nat` together with bound hypotheses `< 2^64`;
  the wrapping (release-mode) semantics of `u64` addition and subtraction
  is made explicit with `% 2^64`.
* `f64` samples and the labeler input are modelled as `ℚ`: the claims under
  study only store, compare against integer thresholds, and divide these
  values, and every comparison involved is exact.
* Rust panics (`Vec` indexing out of range, `Option::expect`) are modelled
  by `Option`: a panicking execution is `none`.
-/

namespace ProcessViewer

/-- Wrapping `u64` addition (release-mode Rust semantics). -/
def u64add (a b : Nat) : Nat := (a + b) % 2 ^ 64

/-- Wrapping `u64` subtraction (release-mode Rust semantics); faithful for
operands below `2^64`. -/
def u64sub (a b : Nat) : Nat := (a + 2 ^ 64 - b) % 2 ^ 64

/-- Function `compute_running_since` from `src/process_dialog.rs` (lines 102-112).
Arguments follow the data used by the source: `process_start_time` is
`process.start_time()`, `start_time` and `running_since` are the `u64`
parameters of the Rust function.

```rust
if start_time > process.start_time() {
    start_time - process.start_time() + running_since
} else {
    start_time + running_since - process.start_time()
}
``` -/
def compute_running_since (process_start_time start_time running_since : Nat) : Nat :=
  if start_time > process_start_time then
    u64add (u64sub start_time process_start_time) running_since
  else
    u64sub (u64add start_time running_since) process_start_time

/-- The day count of `format_time`: `t / 86_400`. -/
def days (t : Nat) : Nat := t / 86400

/-- The hour count of `format_time`: `t / 3_600 % 24`. -/
def hours (t : Nat) : Nat := t / 3600 % 24

/-- The minute count of `format_time`: `t / 60 % 60`. -/
def minutes (t : Nat) : Nat := t / 60 % 60

/-- The second count of `format_time`: `t % 60`. -/
def seconds (t : Nat) : Nat := t % 60

/-- Function `format_time` from `src/process_dialog.rs` (lines 49-76): concatenates a
days part, an hours part and a minutes part — each rendered as `"{n}d "` /
`"{n}h "` / `"{n}m "` when its count is positive and as the empty string
otherwise — followed by the seconds count and `"s"`. -/
def format_time (t : Nat) : String :=
  (if days t > 0 then toString (days t) ++ "d " else "")
    ++ (if hours t > 0 then toString (hours t) ++ "h " else "")
    ++ (if minutes t > 0 then toString (minutes t) ++ "m " else "")
    ++ toString (seconds t) ++ "s"

/-- The memory graph's label callback, `ram_usage_history.set_label_callbacks`
in `src/process_dialog.rs` (lines 199-221). The source returns four strings
`[top, mid, bottom, unit]`; the `to_string`/`{:.1}` float-to-string rendering
is presentation, so the three numeric magnitudes are modelled exactly as the
rationals the source computes, and the unit is kept as its string.

```rust
if v < 100_000. { [v, v/2., "0", "kB"] }
else if v < 10_000_000. { [v/1_024., v/2_048., "0", "MB"] }
else if v < 10_000_000_000. { [v/1_048_576., v/2_097_152., "0", "GB"] }
else { [v/1_073_741_824., v/1_073_741_824., "0", "TB"] }
``` -/
def ram_label (v : ℚ) : ℚ × ℚ × ℚ × String :=
  if v < 100000 then (v, v / 2, 0, "kB")
  else if v < 10000000 then (v / 1024, v / 2048, 0, "MB")
  else if v < 10000000000 then (v / 1048576, v / 2097152, 0, "GB")
  else (v / 1073741824, v / 1073741824, 0, "TB")

/-- The unit tier the memory label callback selects for a value. -/
def ramUnit (v : ℚ) : String := (ram_label v).2.2.2

/-- kB tier range of the spec's table: `v < 100_000`. -/
def inKB (v : ℚ) : Prop := v < 100000

/-- MB tier range of the spec's table: `[100_000, 10_000_000)`. -/
def inMB (v : ℚ) : Prop := 100000 ≤ v ∧ v < 10000000

/-- GB tier range of the spec's table: `[10_000_000, 10_000_000_000)`. -/
def inGB (v : ℚ) : Prop := 10000000 ≤ v ∧ v < 10000000000

/-- TB tier range of the spec's table: `v ≥ 10_000_000_000`. -/
def inTB (v : ℚ) : Prop := 10000000000 ≤ v

/-- The CPU graph's label callback, `cpu_usage_history.set_label_callbacks`
in `src/process_dialog.rs` (lines 189-191): it ignores its argument and
returns the four strings `["100", "50", "0", "%"]`. -/
def cpu_label (_ : ℚ) : String × String × String × String :=
  ("100", "50", "0", "%")

/-- Modelled from the spec: the external process snapshot (spec §6), exposing
memory, CPU percent and the OS-reported start time. Field names follow the
`sysinfo` accessors the source calls (`memory()`, `cpu_usage()`,
`start_time()`); the spec names these `memory_bytes`, `cpu_percent`,
`process_start_time`. `memory` is a `u64` magnitude, `cpu_usage` an `f32`
percent modelled as a rational. -/
structure Process where
  memory : Nat
  cpu_usage : ℚ
  start_time : Nat
deriving DecidableEq

/-- Modelled from the spec: `RotateVec` (`utils.rs`, outside `src/`) is the
spec's RingSeries (§4.1 / §3): a fixed-length sample buffer whose rotation
shifts every sample one slot toward the oldest end, dropping the oldest, and
frees slot 0 for the newest value. The source's `move_start()` followed by
`*get_mut(0) = v` is modelled as one step; `get_mut(0)` returns `None` on an
empty buffer and the source panics on it (`.expect("cannot get data 0")`),
modelled as `none`. -/
def rotateAndSet (v : ℚ) (l : List ℚ) : Option (List ℚ) :=
  match l with
  | [] => none
  | _ :: _ => some (v :: l.dropLast)

/-- Modelled from the spec: `Graph` (`graph.rs`, outside `src/`) as the
spec's MetricHistory (§3, §4.3): the attached series (`data`), the optional
fixed ceiling, the axis-label display flag, and the dirty flag. The label
callback is held separately above (`ram_label`, `cpu_label`). -/
structure Graph where
  data : List (List ℚ)
  max_value : Option ℚ
  display_labels : Bool
  dirty : Bool
deriving DecidableEq

/-- Modelled from the spec: `Graph::invalidate` idempotently marks the
history dirty (§4.3); clearing the flag belongs to the external renderer. -/
def Graph.invalidate (g : Graph) : Graph := { g with dirty := true }

/-- One series update of `ProcDialog::update`: `t.data[0].move_start();
*t.data[0].get_mut(0).expect("cannot get data 0") = value`. Indexing
`data[0]` on an empty `Vec` panics, modelled as `none`. -/
def updateSeries (v : ℚ) (data : List (List ℚ)) : Option (List (List ℚ)) :=
  match data with
  | [] => none
  | s :: rest =>
    match rotateAndSet v s with
    | none => none
    | some s2 => some (s2 :: rest)

/-- The state of `ProcDialog` relevant to the metric engine: the run-time
label text and the two metric histories. The remaining fields of the Rust
struct (GTK labels for cwd/memory/cpu, the popup window, pid, notebook) are
presentation glue outside the core. -/
structure ProcDialog where
  run_time : String
  ram_usage_history : Graph
  cpu_usage_history : Graph
deriving DecidableEq

/-- Method `ProcDialog::update` from `src/process_dialog.rs` (lines 31-46),
restricted to the metric engine: recompute the running-since text via
`compute_running_since`/`format_time`, rotate each history's series 0 and
write the newest sample (memory for the RAM graph, CPU percent for the CPU
graph), and invalidate both graphs. The `set_text` calls on the cwd/memory/
cpu GTK labels are presentation and the `process.memory() as f64` cast is
modelled as the exact rational value. -/
def ProcDialog.update (d : ProcDialog) (process : Process)
    (running_since start_time : Nat) : Option ProcDialog :=
  match updateSeries (process.memory : ℚ) d.ram_usage_history.data with
  | none => none
  | some ramData =>
    match updateSeries process.cpu_usage d.cpu_usage_history.data with
    | none => none
    | some cpuData =>
      some { run_time := format_time
               (compute_running_since process.start_time start_time
                 running_since),
             ram_usage_history :=
               Graph.invalidate { d.ram_usage_history with data := ramData },
             cpu_usage_history :=
               Graph.invalidate { d.cpu_usage_history with data := cpuData } }

/-- The newest sample of a history: slot 0 of series 0. -/
def newestSample (g : Graph) : Option ℚ :=
  match g.data with
  | [] => none
  | s :: _ => s.head?

/-- A concrete dialog used to exercise `ProcDialog.update`: both graphs carry
one series of 61 zero samples, as seeded by `create_process_dialog`, and are
not dirty. -/
def sampleDialog : ProcDialog :=
  { run_time := "0s",
    ram_usage_history :=
      { data := [List.replicate 61 0], max_value := some 1024,
        display_labels := false, dirty := false },
    cpu_usage_history :=
      { data := [List.replicate 61 0], max_value := some 100,
        display_labels := false, dirty := false } }

/-- A concrete snapshot whose memory sample `0` equals the previously stored
newest sample of `sampleDialog`. -/
def sampleProcess : Process :=
  { memory := 0, cpu_usage := 37.5, start_time := 5 }

/-- The result of `sampleDialog.update sampleProcess 0 7`, written out: the
RAM series is unchanged as a list (a fresh `0` replaced an evicted `0`), the
CPU series gained `37.5` at slot 0, both graphs are dirty, and the run time
text is `format_time 2 = "2s"`. -/
def sampleDialogUpdated : ProcDialog :=
  { run_time := "2s",
    ram_usage_history :=
      { data := [List.replicate 61 0], max_value := some 1024,
        display_labels := false, dirty := true },
    cpu_usage_history :=
      { data := [(37.5 : ℚ) :: List.replicate 60 0], max_value := some 100,
        display_labels := false, dirty := true } }

/-- The formatter behaviour claimed by the spec, written from its words for
comparison with `format_time`: zero-valued units are omitted only while they
are leading (no larger unit rendered yet); after the first rendered unit
every smaller unit is rendered, and the seconds count is always rendered. -/
def leading_omit_format (t : Nat) : String :=
  if days t > 0 then
    toString (days t) ++ "d " ++ toString (hours t) ++ "h "
      ++ toString (minutes t) ++ "m " ++ toString (seconds t) ++ "s"
  else if hours t > 0 then
    toString (hours t) ++ "h " ++ toString (minutes t) ++ "m "
      ++ toString (seconds t) ++ "s"
  else if minutes t > 0 then
    toString (minutes t) ++ "m " ++ toString (seconds t) ++ "s"
  else
    toString (seconds t) ++ "s"

/-- The day, hour and minute components `format_time` may render, largest
first, with their unit suffixes. -/
def unitParts (t : Nat) : List (Nat × String) :=
  [(days t, "d "), (hours t, "h "), (minutes t, "m ")]

/-- The amended formatter description: every zero-valued unit among days,
hours and minutes is omitted wherever it occurs, every positive one is
rendered, and the seconds count is always rendered. -/
def any_zero_omit_format (t : Nat) : String :=
  ((unitParts t).filter (fun p => 0 < p.1)).foldr
    (fun p acc => toString p.1 ++ p.2 ++ acc)
    (toString (seconds t) ++ "s")

end ProcessViewer

namespace ProcessViewer

theorem two_pow_64_eq : (2 : Nat) ^ 64 = 18446744073709551616 := by norm_num

/-- Claim C1 (corrected): the guarded first branch of `compute_running_since`
never wraps, but the second branch's subtraction wraps exactly when the
(wrapped) sum `start_time + running_since` is below `process_start_time`,
and then the result is the mod-`2^64` value, not an absolute difference. -/
theorem compute_running_since_wrap_characterization
    (pst st acc : Nat) (hpst : pst < 2 ^ 64) (hst : st < 2 ^ 64)
    (hacc : acc < 2 ^ 64) :
    (pst < st → u64sub st pst = st - pst ∧
      compute_running_since pst st acc = (st - pst + acc) % 2 ^ 64) ∧
    (st ≤ pst → pst ≤ u64add st acc →
      compute_running_since pst st acc = u64add st acc - pst) ∧
    (st ≤ pst → u64add st acc < pst →
      compute_running_since pst st acc = u64add st acc + 2 ^ 64 - pst) := by
  have hA : u64add st acc < 2 ^ 64 := Nat.mod_lt _ (by norm_num)
  unfold u64add at hA
  unfold compute_running_since u64add u64sub
  rw [two_pow_64_eq] at hpst hst hacc hA
  simp only [two_pow_64_eq]
  refine ⟨?_, ?_, ?_⟩
  · intro hlt
    rw [if_pos hlt]
    constructor
    · omega
    · have h1 : (st + 18446744073709551616 - pst) % 18446744073709551616
          = st - pst := by omega
      rw [h1]
  · intro hle hge
    rw [if_neg (by omega)]
    omega
  · intro hle hlt2
    rw [if_neg (by omega)]
    omega

/-- Witness for C1's corrected theorem at `pst = 3`, `st = 10`, `acc = 2`. -/
theorem compute_running_since_wrap_characterization_witness :
    compute_running_since 3 10 2 = (10 - 3 + 2) % 2 ^ 64 :=
  ((compute_running_since_wrap_characterization 3 10 2 (by norm_num)
      (by norm_num) (by norm_num)).1 (by norm_num)).2

/-- Claim C1 counterexample: at `process_start_time = 1000`,
`start_time = 400`, `accumulated = 50` the second branch's subtraction has
minuend `450 < 1000`, wraps, and the result `2^64 - 550` is not the absolute
difference of the timestamps plus the accumulated duration (`650`). -/
theorem compute_running_since_underflow_counterexample :
    u64add 400 50 < 1000 ∧
    compute_running_since 1000 400 50 = 18446744073709551066 ∧
    (18446744073709551066 : Nat) ≠ (1000 - 400) + 50 := by
  refine ⟨by decide, ?_, by decide⟩
  unfold compute_running_since u64add u64sub
  norm_num

/-- Claim C2 counterexample: `compute_running_since` at
`monitoring_epoch_start = 400`, `process_start_time = 1000`,
`accumulated = 50` does not return `450`. -/
theorem compute_running_since_example_counterexample :
    compute_running_since 1000 400 50 ≠ 450 := by
  unfold compute_running_since u64add u64sub
  norm_num

/-- Claim C2 (corrected): at `monitoring_epoch_start = 400`,
`process_start_time = 1000`, `accumulated = 50` the `u64` computation
`400 + 50 - 1000` wraps and returns `2^64 - 550`. -/
theorem compute_running_since_example_value :
    compute_running_since 1000 400 50 = 18446744073709551066 := by
  unfold compute_running_since u64add u64sub
  norm_num

/-- Claim C3 (corrected): whenever the sums stay below `2^64`,
`compute_running_since` returns the exact value of the branch formulas as
long as the else branch's value is non-negative (in particular `0` for equal
timestamps with no accumulated duration); when
`start_time + running_since < process_start_time` it returns that negative
difference shifted up by `2^64`, not the formula's value. -/
theorem compute_running_since_exact
    (pst st acc : Nat) (hpst : pst < 2 ^ 64) (hst : st < 2 ^ 64)
    (hsum : st + acc < 2 ^ 64) :
    (pst < st → compute_running_since pst st acc = st - pst + acc) ∧
    (st ≤ pst → pst ≤ st + acc →
      compute_running_since pst st acc = st + acc - pst) ∧
    (st ≤ pst → st + acc < pst →
      compute_running_since pst st acc = st + acc + 2 ^ 64 - pst) ∧
    (st = pst → acc = 0 → compute_running_since pst st acc = 0) := by
  rw [two_pow_64_eq] at hpst hst hsum ⊢
  unfold compute_running_since u64add u64sub
  rw [two_pow_64_eq]
  refine ⟨?_, ?_, ?_, ?_⟩
  · intro hlt
    rw [if_pos hlt]
    omega
  · intro hle hge
    rw [if_neg (by omega)]
    omega
  · intro hle hlt2
    rw [if_neg (by omega)]
    omega
  · intro heq hz
    rw [if_neg (by omega)]
    omega

/-- Witness for C3's corrected theorem at equal timestamps
`pst = st = 5`, `acc = 0`, giving `0`. -/
theorem compute_running_since_exact_witness :
    compute_running_since 5 5 0 = 0 :=
  (compute_running_since_exact 5 5 0 (by norm_num) (by norm_num)
      (by norm_num)).2.2.2 rfl rfl

/-- Claim C3 counterexample: at `process_start_time = 7`, `start_time = 3`,
`accumulated = 2` the code returns `2^64 - 2`, which is neither the
truncated natural value of `3 + 2 - 7` nor the integer value `-2`. -/
theorem compute_running_since_formula_counterexample :
    compute_running_since 7 3 2 = 18446744073709551614 ∧
    compute_running_since 7 3 2 ≠ 3 + 2 - 7 ∧
    ((compute_running_since 7 3 2 : Nat) : Int) ≠ (3 : Int) + 2 - 7 := by
  have h : compute_running_since 7 3 2 = 18446744073709551614 := by
    unfold compute_running_since u64add u64sub
    norm_num
  refine ⟨h, ?_, ?_⟩
  · rw [h]; norm_num
  · rw [h]; norm_num

/-- Claim C5: the memory label callback's unit-tier selection is a total,
non-overlapping partition of the non-negative values: exactly one of the
kB, MB, GB, TB ranges holds, the selected unit matches that range, and the
boundary values `100_000`, `10_000_000`, `10_000_000_000` each select the
higher tier because the comparisons are strict `<`. -/
theorem ram_label_tier_partition (v : ℚ) (hv : 0 ≤ v) :
    ((inKB v ∧ ¬ inMB v ∧ ¬ inGB v ∧ ¬ inTB v) ∨
     (¬ inKB v ∧ inMB v ∧ ¬ inGB v ∧ ¬ inTB v) ∨
     (¬ inKB v ∧ ¬ inMB v ∧ inGB v ∧ ¬ inTB v) ∨
     (¬ inKB v ∧ ¬ inMB v ∧ ¬ inGB v ∧ inTB v)) ∧
    (ramUnit v = "kB" ↔ inKB v) ∧
    (ramUnit v = "MB" ↔ inMB v) ∧
    (ramUnit v = "GB" ↔ inGB v) ∧
    (ramUnit v = "TB" ↔ inTB v) ∧
    ramUnit 100000 = "MB" ∧ ramUnit 10000000 = "GB" ∧
    ramUnit 10000000000 = "TB" := by
  unfold ramUnit ram_label inKB inMB inGB inTB
  by_cases h1 : v < 100000 <;> by_cases h2 : v < 10000000 <;>
    by_cases h3 : v < 10000000000 <;>
    simp [h1, h2, h3] <;> norm_num <;> linarith

/-- Witness for C5 at `v = 42`: the kB tier applies and the unit is kB. -/
theorem ram_label_tier_partition_witness :
    ramUnit 42 = "kB" ∧ inKB 42 :=
  ⟨((ram_label_tier_partition 42 (by norm_num)).2.1).2 (by norm_num [inKB]),
   by norm_num [inKB]⟩

/-- Claim C6: for every value in the TB tier (`v ≥ 10_000_000_000`) the
memory label callback's top and mid magnitudes are both `v / 1_073_741_824`;
the mid label has no extra `/2` divisor. -/
theorem ram_label_TB_top_eq_mid (v : ℚ) (hv : 10000000000 ≤ v) :
    (ram_label v).1 = v / 1073741824 ∧ (ram_label v).2.1 = v / 1073741824 := by
  unfold ram_label
  rw [if_neg (by linarith), if_neg (by linarith), if_neg (by linarith)]
  exact ⟨rfl, rfl⟩

/-- Witness for C6 at `v = 10_000_000_000` exactly. -/
theorem ram_label_TB_top_eq_mid_witness :
    (ram_label 10000000000).1 = 10000000000 / 1073741824 ∧
    (ram_label 10000000000).2.1 = 10000000000 / 1073741824 :=
  ram_label_TB_top_eq_mid 10000000000 (by norm_num)

/-- Claim C7: the CPU percent label callback is a constant function,
returning `("100", "50", "0", "%")` for every input value. -/
theorem cpu_label_const (v : ℚ) :
    cpu_label v = ("100", "50", "0", "%") := rfl

theorem updateSeries_shape (v : ℚ) (data out : List (List ℚ))
    (h : updateSeries v data = some out) :
    ∃ s rest, data = s :: rest ∧ s ≠ [] ∧
      out = (v :: s.dropLast) :: rest := by
  cases data with
  | nil => exact absurd h (by simp [updateSeries])
  | cons s rest =>
    cases s with
    | nil => exact absurd h (by simp [updateSeries, rotateAndSet])
    | cons a l =>
      refine ⟨a :: l, rest, rfl, by simp, ?_⟩
      simp [updateSeries, rotateAndSet] at h
      exact h.symm

/-- Claim C4: whenever `ProcDialog::update` succeeds, the newest slot
(index 0 after rotation) of series 0 of the memory history holds the
snapshot's memory value, and the newest slot of series 0 of the CPU history
holds the snapshot's CPU percent. -/
theorem update_sets_newest_samples (d : ProcDialog) (p : Process)
    (rs st : Nat) (d2 : ProcDialog) (h : d.update p rs st = some d2) :
    newestSample d2.ram_usage_history = some (p.memory : ℚ) ∧
    newestSample d2.cpu_usage_history = some p.cpu_usage := by
  unfold ProcDialog.update at h
  cases hr : updateSeries (p.memory : ℚ) d.ram_usage_history.data with
  | none => rw [hr] at h; simp at h
  | some ramData =>
    cases hc : updateSeries p.cpu_usage d.cpu_usage_history.data with
    | none => rw [hr, hc] at h; simp at h
    | some cpuData =>
      rw [hr, hc] at h
      simp only [Option.some.injEq] at h
      obtain ⟨s, rest, hdata, hne, hout⟩ := updateSeries_shape _ _ _ hr
      obtain ⟨s2, rest2, hdata2, hne2, hout2⟩ := updateSeries_shape _ _ _ hc
      subst hout hout2
      rw [← h]
      constructor <;> simp [newestSample, Graph.invalidate]

/-- Witness for C4: updating `sampleDialog` with `sampleProcess` puts the
snapshot's memory and CPU values in the newest slots. -/
theorem update_sets_newest_samples_witness :
    newestSample sampleDialogUpdated.ram_usage_history
        = some (sampleProcess.memory : ℚ) ∧
    newestSample sampleDialogUpdated.cpu_usage_history
        = some sampleProcess.cpu_usage :=
  update_sets_newest_samples sampleDialog sampleProcess 0 7
    sampleDialogUpdated (by rfl)

/-- Claim C8: whenever `ProcDialog::update` succeeds, both the memory
history and the CPU history come out with their dirty flag set to `true`,
unconditionally. -/
theorem update_sets_dirty (d : ProcDialog) (p : Process)
    (rs st : Nat) (d2 : ProcDialog) (h : d.update p rs st = some d2) :
    d2.ram_usage_history.dirty = true ∧
    d2.cpu_usage_history.dirty = true := by
  unfold ProcDialog.update at h
  cases hr : updateSeries (p.memory : ℚ) d.ram_usage_history.data with
  | none => rw [hr] at h; simp at h
  | some ramData =>
    cases hc : updateSeries p.cpu_usage d.cpu_usage_history.data with
    | none => rw [hr, hc] at h; simp at h
    | some cpuData =>
      rw [hr, hc] at h
      simp only [Option.some.injEq] at h
      rw [← h]
      exact ⟨rfl, rfl⟩

/-- Witness for C8: `sampleDialog` starts clean, the written memory sample
`0` equals the previously stored newest sample, and after the update both
histories are dirty. -/
theorem update_sets_dirty_witness :
    sampleDialog.ram_usage_history.dirty = false ∧
    newestSample sampleDialog.ram_usage_history
        = some (sampleProcess.memory : ℚ) ∧
    sampleDialogUpdated.ram_usage_history.dirty = true ∧
    sampleDialogUpdated.cpu_usage_history.dirty = true :=
  ⟨rfl, by decide,
   (update_sets_dirty sampleDialog sampleProcess 0 7 sampleDialogUpdated
      (by rfl)).1,
   (update_sets_dirty sampleDialog sampleProcess 0 7 sampleDialogUpdated
      (by rfl)).2⟩

/-- Claim C9 counterexample: at `t = 86_430` seconds (1 day, 0 hours,
0 minutes, 30 seconds) `format_time` renders `"1d 30s"`, omitting the
zero-valued hours and minutes even though they are not leading, while the
leading-zero-omission rendering would be `"1d 0h 0m 30s"`. -/
theorem format_time_leading_omit_counterexample :
    format_time 86430 = "1d 30s" ∧
    leading_omit_format 86430 = "1d 0h 0m 30s" ∧
    format_time 86430 ≠ leading_omit_format 86430 := by
  refine ⟨by decide, by decide, by decide⟩

/-- Claim C9 (corrected): `format_time` omits every zero-valued unit among
days, hours and minutes — wherever it occurs, not only when leading —
renders every positive one, and always renders the seconds count. -/
theorem format_time_omits_every_zero_unit (t : Nat) :
    format_time t = any_zero_omit_format t := by
  unfold format_time any_zero_omit_format unitParts
  by_cases h1 : 0 < days t <;> by_cases h2 : 0 < hours t <;>
    by_cases h3 : 0 < minutes t <;>
    simp [h1, h2, h3, List.filter, String.append_assoc, String.empty_append]

/-- Claim C10: the numeric components computed by `format_time` reconstruct
the input exactly:
`days*86_400 + hours*3_600 + minutes*60 + seconds = t`. -/
theorem time_components_reconstruct (t : Nat) :
    days t * 86400 + hours t * 3600 + minutes t * 60 + seconds t = t := by
  unfold days hours minutes seconds
  omega

end ProcessViewer
